import Mathlib

/-!
Verification of the reddit-nntp server (Go) against its specification.

The Go sources are shallowly embedded below:
* `store` — src/spool/store/db.go (the SQLite-backed data-access layer,
  modelled as a pure list of spool rows);
* `data` — the `data` package (Header/Article rendering);
* `spool` — src/spool/spool.go and src/spool/cache.go (the spool facade);
* `nntp` — src/nntp/server.go (command handlers).

Go `(value, error)` pairs are modelled with `Except`/`Option`; a nil-pointer
dereference (a Go runtime panic) is modelled by the explicit `GoOut.nilDeref`
constructor.  Machine integers that stay small are modelled as `Nat`
(SQL counts and lengths are non-negative; no claim exercises 64-bit wraparound,
and where a Go `int → uint` conversion occurs it is modelled explicitly).
Timestamps are modelled as `Nat`; their textual rendering by Go
`time.Time.Format` is abstracted (no claim depends on the date text).
-/

namespace RedditNntp

/-! ## Store layer: src/spool/store/db.go -/

namespace store

/-- A row of the `spool` table (store.ArticleRecord / one SQL row).
`postedAt` is the stored timestamp, modelled as `Nat`. -/
structure SpoolRow where
  postedAt : Nat
  newsgroup : String
  subject : String
  author : String
  msgID : String
  parentID : String
  body : String
deriving DecidableEq

/-- db.go `DoesMessageIDExist`: SELECT COUNT(*) FROM spool WHERE message_id = ?,
returning count > 0. -/
def DoesMessageIDExist (sp : List SpoolRow) (msgID : String) : Bool :=
  sp.any (fun r => r.msgID == msgID)

/-- db.go `InsertArticleRecord`: returns without inserting when the message id
already exists; otherwise INSERTs the row (appended at the end of the table,
matching the AUTOINCREMENT primary key). -/
def InsertArticleRecord (sp : List SpoolRow) (ar : SpoolRow) : List SpoolRow :=
  if DoesMessageIDExist sp ar.msgID then sp else sp ++ [ar]

/-- db.go `ArticleCount`: SELECT COUNT(*) FROM spool. -/
def ArticleCount (sp : List SpoolRow) : Nat := sp.length

/-- db.go `GroupArticleCount`: SELECT COUNT(*) FROM spool WHERE newsgroup = ?. -/
def GroupArticleCount (sp : List SpoolRow) (group : String) : Nat :=
  (sp.filter (fun r => r.newsgroup == group)).length

/-- The table with its rowids.  SQLite rowids for an AUTOINCREMENT primary key
are 1, 2, ... in insertion order. -/
def tableWithRowIDs (sp : List SpoolRow) : List (Nat × SpoolRow) :=
  sp.enum.map (fun p => (p.1 + 1, p.2))

/-- db.go `GetAllRowIDs` (and the identical `GetRowIDs`):
SELECT rowid FROM spool WHERE newsgroup = ? ORDER BY posted_at.
The ORDER BY is modelled by a stable insertion sort on `postedAt`. -/
def GetAllRowIDs (sp : List SpoolRow) (group : String) : List Nat :=
  (((tableWithRowIDs sp).filter (fun p => p.2.newsgroup == group)).insertionSort
      (fun a b => a.2.postedAt ≤ b.2.postedAt)).map (fun p => p.1)

/-- The header columns of a spool row as read back by the store
(store.Header; `postedAt` is the stored timestamp). -/
structure Header where
  postedAt : Nat
  newsgroup : String
  subject : String
  author : String
  msgID : String
  parentID : String
deriving DecidableEq

/-- Projection of a row onto its header columns. -/
def SpoolRow.header (r : SpoolRow) : Header :=
  ⟨r.postedAt, r.newsgroup, r.subject, r.author, r.msgID, r.parentID⟩

/-- db.go `GetHeaderByRowID`: SELECT ... FROM spool WHERE rowid = ?;
returns `(nil, nil)` — here `none` — when no row matches. -/
def GetHeaderByRowID (sp : List SpoolRow) (rowID : Nat) : Option Header :=
  match (tableWithRowIDs sp).find? (fun p => p.1 == rowID) with
  | none => none
  | some p => some p.2.header

/-- db.go `GetHeaderByMsgID`: SELECT ... FROM spool WHERE message_id = ?;
returns `(nil, nil)` — here `none` — when no row matches. -/
def GetHeaderByMsgID (sp : List SpoolRow) (msgID : String) : Option Header :=
  match sp.find? (fun r => r.msgID == msgID) with
  | none => none
  | some r => some r.header

end store

/-! ## Protocol entities: the `data` package (Header/Article rendering) -/

namespace data

/-- Go `html.UnescapeString` (standard library, outside this repository),
abstracted as the identity: it decodes HTML entities and is the identity on
entity-free strings; no claim depends on entity decoding. -/
def htmlUnescape (s : String) : String := s

/-- Does the pattern (first argument) begin the list (second argument)? -/
def startsWithChars : List Char → List Char → Bool
  | [], _ => true
  | _ :: _, [] => false
  | p :: ps, c :: cs => p == c && startsWithChars ps cs

/-- Left-to-right non-overlapping removal of the 8-character entity
`&#x200B;` (Go `strings.ReplaceAll(s, "&#x200B;", "")`), written with a
character-count fuel so it is structural; the fuel always suffices since
every step consumes at least one character. -/
def stripZWSPAux : Nat → List Char → List Char
  | 0, _ => []
  | _ + 1, [] => []
  | fuel + 1, c :: rest =>
    if startsWithChars ("&#x200B;".data) (c :: rest) then
      stripZWSPAux fuel (rest.drop 7)
    else c :: stripZWSPAux fuel rest

/-- Remove every occurrence of the zero-width-space entity. -/
def stripZWSP (cs : List Char) : List Char := stripZWSPAux cs.length cs

/-- data.unQuoteHTMLString: strip the zero-width-space entity then unescape
HTML entities. -/
def unQuoteHTMLString (payload : String) : String :=
  htmlUnescape (String.mk (stripZWSP payload.data))

/-- Go `time.Time.Format "02 Jan 2006 15:04 -0700"` (standard library),
abstracted as the decimal rendering of the modelled timestamp; no claim
depends on the date text. -/
def formatNntpTime (t : Nat) : String := toString t

/-- data.Header: the protocol-form header.  `postedAt` is modelled as `Nat`. -/
structure Header where
  postedAt : Nat
  newsgroup : String
  subject : String
  author : String
  msgID : String
  references : List String
deriving DecidableEq

/-- data.Header.Bytes (src/unnamed/part_001 lines 21-52): the rendered header
block.  Field order is fixed; the References segment is written only when the
references list is non-empty, with entries joined by commas; one final
newline closes the block. -/
def Header.Bytes (h : Header) : String :=
  "Path: reddit!not-for-mail\n" ++
  "From: " ++ h.author ++ "\n" ++
  "Newsgroups: " ++ h.newsgroup ++ "\n" ++
  "Subject: " ++ unQuoteHTMLString h.subject ++ "\n" ++
  "Date: " ++ formatNntpTime h.postedAt ++ "\n" ++
  "Message-ID: " ++ h.msgID ++ "\n" ++
  (if h.references.length > 0 then
    "References: " ++ String.intercalate "," h.references
  else "") ++ "\n"

end data

/-! Splitting a rendered block into its lines (observation used to state the
References-line claims; `charLines` splits a character list at every
newline). -/

/-- Split a character list at newline characters; the result always has one
more element than the number of newlines. -/
def charLines : List Char → List (List Char)
  | [] => [[]]
  | c :: rest =>
    if c = '\n' then [] :: charLines rest
    else
      match charLines rest with
      | [] => [[c]]
      | l :: ls => (c :: l) :: ls

/-- A rendered block contains a References line when some line of it starts
with the literal text of the References label. -/
def hasReferencesLine (s : String) : Bool :=
  (charLines s.data).any (fun l => data.startsWithChars ("References: ".data) l)

/-- Outcome of a Go call returning `(pointer-or-value, error)`:
`ok` (nil error), `fail` (non-nil error with its message), or `nilDeref`
(the call dereferences a nil pointer — a runtime panic that, being
unrecovered, crashes the process). -/
inductive GoOut (α : Type) where
  | ok : α → GoOut α
  | fail : String → GoOut α
  | nilDeref : GoOut α
deriving DecidableEq

/-! ## Spool facade: src/spool/cache.go and src/spool/spool.go -/

namespace spool

/-- Errors surfaced by the row-id cache: either an ordinary message error
(`fmt.Errorf`) or the dedicated `ErrArticleNumNotFound` sentinel. -/
inductive CacheErr where
  | msg : String → CacheErr
  | articleNumNotFound : CacheErr
deriving DecidableEq

/-- cache.go `ArticleNumToRowIDCached` (lines 66-87).  The row-id list
fetched by `GetRowIDsFromCache` is passed as the `allRowIDs` argument (its
TTL/refresh behaviour involves the wall clock and a benign write race and is
not covered by any claim; on a fresh cache it equals `store.GetAllRowIDs`).
A Go nil slice and an empty slice are both the empty list. -/
def ArticleNumToRowIDCached (group : String) (allRowIDs : List Nat)
    (articleNum : Nat) : Except CacheErr Nat :=
  if articleNum < 1 then
    .error (.msg ("cannot serve article #" ++ toString articleNum))
  else if allRowIDs.length == 0 then
    .error (.msg ("no headers found for group " ++ group))
  else if allRowIDs.length < articleNum then
    .error .articleNumNotFound
  else
    .ok (allRowIDs.getD (articleNum - 1) 0)

/-- spool.go `GetHeaderByNGNum` (lines 163-193): map the article number to a
rowid through the cache (`ErrArticleNumNotFound` becomes `(nil, nil)`, other
cache errors are wrapped), fetch the header row, and build the protocol
header with a references list holding exactly the stored parent_id.
The `FromDbTime` parse (with its epoch-0 fallback) is the identity on the
`Nat`-modelled timestamp. -/
def GetHeaderByNGNum (sp : List store.SpoolRow) (group : String)
    (articleNum : Nat) : GoOut (Option data.Header) :=
  match ArticleNumToRowIDCached group (store.GetAllRowIDs sp group) articleNum with
  | .error .articleNumNotFound => .ok none
  | .error (.msg e) => .fail ("article number not found: " ++ e)
  | .ok rowID =>
    match store.GetHeaderByRowID sp rowID with
    | none => .ok none
    | some dbHeader =>
      .ok (some { postedAt := dbHeader.postedAt, newsgroup := dbHeader.newsgroup,
                  subject := dbHeader.subject, author := dbHeader.author,
                  msgID := dbHeader.msgID, references := [dbHeader.parentID] })

/-- spool.go `GetHeaderByMsgID` (lines 195-214).  The store returns
`(nil, nil)` when the message id has no row; the Go code checks only the
error and then reads `dbHeader.PostedAt`, dereferencing the nil pointer —
modelled as `nilDeref`.  On a hit it builds the protocol header with a
references list holding exactly the stored parent_id. -/
def GetHeaderByMsgID (sp : List store.SpoolRow) (msgID : String) :
    GoOut data.Header :=
  match store.GetHeaderByMsgID sp msgID with
  | none => .nilDeref
  | some dbHeader =>
    .ok { postedAt := dbHeader.postedAt, newsgroup := dbHeader.newsgroup,
          subject := dbHeader.subject, author := dbHeader.author,
          msgID := dbHeader.msgID, references := [dbHeader.parentID] }

/-- spool.go `GetArticleNumsFromGroup` (lines 300-316): fetch the group's
rowids; error "no headers found" when there are none; otherwise
`nums := make([]uint, len(rowIDs))` — a slice of `len` zeros — followed by
`nums = append(nums, uint(i))` for each index `i`, i.e. the zeros are kept
and the 0-based indices are appended after them. -/
def GetArticleNumsFromGroup (sp : List store.SpoolRow) (group : String) :
    Except String (List Nat) :=
  let rowIDs := store.GetAllRowIDs sp group
  if rowIDs.length == 0 then
    .error ("no headers found for group " ++ group)
  else
    .ok (List.replicate rowIDs.length 0 ++ List.range rowIDs.length)

end spool

/-! ## NNTP session layer: src/nntp/server.go -/

namespace nntp

/-- A reply written to the client: a single status line, or a status line
followed by a dot-terminated multi-line payload (one list entry per payload
line written through the DotWriter). -/
inductive Reply where
  | single : String → Reply
  | multi : String → List String → Reply
deriving DecidableEq

/-- The status line of a reply. -/
def replyStatus : Reply → String
  | .single l => l
  | .multi s _ => s

/-- server.go `isMessageID` (lines 136-146): non-empty, first byte `<` and
last byte `>` (bytes and characters agree on these ASCII tests). -/
def isMessageID (s : String) : Bool :=
  if s.length == 0 then false
  else s.front == '<' && s.back == '>'

/-- Is the character an ASCII digit? -/
def isDigitChar (c : Char) : Bool := '0' ≤ c && c ≤ '9'

/-- Numeric value of an ASCII digit. -/
def digitVal (c : Char) : Nat := c.toNat - '0'.toNat

/-- Fold a digit string into its value (used by the Atoi model). -/
def digitsToNat (cs : List Char) : Nat :=
  cs.foldl (fun acc c => acc * 10 + digitVal c) 0

/-- Go `strconv.Atoi` (standard library): optional sign followed by one or
more digits, the whole string consumed; anything else is an error.
Overflow saturation is not modelled (no claim exercises 64-bit bounds). -/
def strconvAtoi (s : String) : Option Int :=
  match s.data with
  | [] => none
  | '-' :: rest =>
    if rest.isEmpty || !rest.all isDigitChar then none
    else some (-(digitsToNat rest : Int))
  | '+' :: rest =>
    if rest.isEmpty || !rest.all isDigitChar then none
    else some (digitsToNat rest : Int)
  | cs =>
    if cs.all isDigitChar then some (digitsToNat cs : Int) else none

/-- Go conversion `uint(n)` for a 64-bit int, as a `Nat`. -/
def uintOfInt (n : Int) : Nat := (n % (2 ^ 64 : Int)).toNat

/-- server.go `handleStat` (lines 762-832), returning the list of reply
lines written.  Faithful subtleties: the 412 branch for a missing current
group does not return, so processing continues and a second line can be
written; the numeric path checks only the fetch error, so a `(nil, nil)`
header (article number beyond the group) is dereferenced for its MsgID —
a nil dereference. -/
def handleStat (sp : List store.SpoolRow) (group : String) (aNum : Nat)
    (args : List String) : GoOut (List String) :=
  let arg := args.headD ""
  let isMsg := args.length != 0 && isMessageID arg
  let isANum := args.length != 0 && !isMessageID arg
  let pre : List String :=
    if (args.length == 0 || isANum) && group == "" then ["412 No Newsgroup Selected"]
    else []
  if isMsg then
    match spool.GetHeaderByMsgID sp arg with
    | .nilDeref => .nilDeref
    | .fail _ => .ok (pre ++ ["423 No article with that number"])
    | .ok header => .ok (pre ++ ["223 0 " ++ header.msgID])
  else
    let numRes : Option Int := if isANum then strconvAtoi arg else some (aNum : Int)
    match numRes with
    | none => .ok (pre ++ ["423 No article with that number"])
    | some num =>
      let n := uintOfInt num
      match spool.GetHeaderByNGNum sp group n with
      | .nilDeref => .nilDeref
      | .fail _ => .ok (pre ++ ["423 No article with that number"])
      | .ok none => .nilDeref
      | .ok (some header) => .ok (pre ++ ["223 " ++ toString n ++ " " ++ header.msgID])

/-- server.go `printHead` (lines 494-540), the HEAD handler proper: with a
message-id argument query by message id (printed article number 0), else
Atoi the argument and query by group and number; on a fetch error or nil
header reply 423, otherwise 221 followed by the rendered header block. -/
def printHead (sp : List store.SpoolRow) (group : String) (args : List String) :
    GoOut Reply :=
  if args.length < 1 then .ok (.single "500 current article mode unsupported")
  else
    let arg := args.headD ""
    if arg.length == 0 then .ok (.single "500 could not parse line properly")
    else if isMessageID arg then
      match spool.GetHeaderByMsgID sp arg with
      | .nilDeref => .nilDeref
      | .fail _ => .ok (.single "423 No article with that number")
      | .ok header =>
        .ok (.multi ("221 0 " ++ header.msgID) [data.Header.Bytes header])
    else
      match strconvAtoi arg with
      | none => .ok (.single "500 could not parse argument properly")
      | some num =>
        match spool.GetHeaderByNGNum sp group (uintOfInt num) with
        | .nilDeref => .nilDeref
        | .fail _ => .ok (.single "423 No article with that number")
        | .ok none => .ok (.single "423 No article with that number")
        | .ok (some header) =>
          .ok (.multi ("221 " ++ toString num ++ " " ++ header.msgID)
            [data.Header.Bytes header])

/-- The HEAD arm of server.go `processLoop` (lines 284-296): before looking
at the argument, the handler requires a current group; when none is set it
replies `500 No active group set. Server error.` and dispatch ends. -/
def headStep (sp : List store.SpoolRow) (curGroup : String)
    (args : List String) : GoOut Reply :=
  if curGroup.length == 0 then .ok (.single "500 No active group set. Server error.")
  else printHead sp curGroup args

/-- server.go `groupData` (lines 38-43): name, high and low water marks and
posting status.  `high`/`low` are Go ints holding article counts, modelled
as `Nat` (every constructed value has `low ≤ high`). -/
structure groupData where
  name : String
  high : Nat
  low : Nat
  status : Nat
deriving DecidableEq

/-- server.go `groupData.String` (lines 68-84); `string` because `String` is
taken in Lean.  In group mode the line is `est low high name` with
`est = high - low`; otherwise `name high low status-letter`. -/
def groupData.string (g : groupData) (groupMode : Bool) : String :=
  let status :=
    if g.status == 0 then "y" else if g.status == 1 then "n"
    else if g.status == 2 then "m" else "n"
  if groupMode then
    toString (g.high - g.low) ++ " " ++ toString g.low ++ " " ++
      toString g.high ++ " " ++ g.name
  else
    g.name ++ " " ++ toString g.high ++ " " ++ toString g.low ++ " " ++ status

/-- Per-session state (the `locals` sync.Map): current group (empty string
when unset) and current article number (0 when unset). -/
structure Session where
  curGroup : String
  curArticleNum : Nat
deriving DecidableEq

/-- server.go `handleGroup` (lines 461-492).  The article-count query result
is passed in (`countRes`; on a live store it is
`.ok (store.GroupArticleCount sp group)`).  On a query error the session is
untouched and the reply is the 403 line; otherwise the current group is set,
the current article number is set to 1 only when articles were found, and
the 211 status line carries `est low high name`. -/
def handleGroup (group : String) (st : Session)
    (countRes : Except Unit Nat) : Session × Reply :=
  match countRes with
  | .error _ => (st, .single "403 error reading from spool")
  | .ok count =>
    let gd : groupData :=
      if count == 0 then ⟨group, 1, 0, 1⟩ else ⟨group, count, 1, 1⟩
    let st1 := { st with curGroup := group }
    let st2 := if count == 0 then st1 else { st1 with curArticleNum := 1 }
    (st2, .single ("211 " ++ gd.string true))

/-- The GROUP arm of server.go `processLoop` (lines 248-283): missing
argument → 500; a failed `Newsgroups()` fetch → 500; a name not in the
fetched group list → 411; otherwise `handleGroup`. -/
def groupCommand (ngRes : Except Unit (List String)) (st : Session)
    (args : List String) (countRes : Except Unit Nat) : Session × Reply :=
  if args.length < 1 then (st, .single "500 No group name provided")
  else
    match ngRes with
    | .error _ => (st, .single "500 Server error: could not fetch groups")
    | .ok newsgroups =>
      let group := args.headD ""
      if !(newsgroups.contains group) then (st, .single "411 No such newsgroup")
      else handleGroup group st countRes

/-- server.go range classes (lines 47-51). -/
def CLOSED_RANGE : Nat := 0

/-- Half-open range class constant. -/
def HALF_OPEN_RANGE : Nat := 1

/-- Singleton range class constant. -/
def SINGLETON_RANGE : Nat := 2

/-- server.go `articleRange` (lines 53-58); `rclass` because `class` is a
Lean keyword. -/
structure articleRange where
  low : Nat
  high : Nat
  rclass : Nat
  valid : Bool
deriving DecidableEq

/-- The zero-valued `articleRange` passed when LISTGROUP has no range
argument. -/
def noRange : articleRange := ⟨0, 0, 0, false⟩

/-- The filtering loop of server.go `handleListGroup` (lines 705-726): when
a range was given keep the numbers it selects, otherwise copy the list. -/
def rangeFilter (rng : articleRange) (aNums : List Nat) : List Nat :=
  if rng.valid then
    aNums.filter (fun aNum =>
      if rng.rclass == CLOSED_RANGE then
        decide (rng.low ≤ aNum) && decide (aNum ≤ rng.high)
      else if rng.rclass == HALF_OPEN_RANGE then decide (rng.low ≤ aNum)
      else aNum == rng.low)
  else aNums

/-- server.go `handleListGroup` (lines 691-760), returning the first-article
number handed back to the dispatcher and the reply.  An empty group name →
412; a failed `GetArticleNumsFromGroup` → `500 query to spool failed`; an
empty number list → 411; otherwise the status is
`211 span min max list follows` (span=1, min=1, max=0 when the filtered
list is empty) and the payload is one number per line. -/
def handleListGroup (sp : List store.SpoolRow) (group : String)
    (rng : articleRange) : Nat × Reply :=
  if group.length < 1 then (0, .single "412 No newsgroup selected")
  else
    match spool.GetArticleNumsFromGroup sp group with
    | .error _ => (0, .single "500 query to spool failed")
    | .ok aNums =>
      if aNums.length == 0 then (0, .single "411 group not found")
      else
        let newNums := rangeFilter rng aNums
        let mn := if newNums.length == 0 then 1 else newNums.headD 0
        let mx := if newNums.length == 0 then 0 else newNums.getLastD 0
        let span := if newNums.length == 0 then 1 else mx - mn + 1
        (1, .multi ("211 " ++ toString span ++ " " ++ toString mn ++ " " ++
              toString mx ++ " list follows")
            (newNums.map toString))

end nntp

/-! ### NEWGROUPS date parsing

server.go `handleNewGroups` (lines 590-641) calls the Go standard library
`time.Parse` on the layouts `"20060102150405"` (8-character date) and
`"060102150405"` (6-character date).  The relevant fragment of `time.Parse`
is modelled below: two-digit numeric fields via `getnum` (a fixed field
needs exactly two digits; a non-fixed field — the hour — may take one digit
when the next character is not a digit), the four-digit year via a leading
digit check plus `atoi`, the two-digit year via `atoi` alone (which accepts
a leading sign) followed by the 69-cutoff century mapping, an
"extra text" error when input remains, and the month/day/hour/minute/second
range checks (day against the month length, with the Gregorian leap rule). -/

namespace nntp

/-- Go time's `getnum`: a one- or two-digit number; a fixed field requires
exactly two digits. -/
def getnum (fixed : Bool) : List Char → Option (Nat × List Char)
  | [] => none
  | [c1] =>
    if isDigitChar c1 then
      if fixed then none else some (digitVal c1, [])
    else none
  | c1 :: c2 :: rest =>
    if isDigitChar c1 then
      if isDigitChar c2 then some (digitVal c1 * 10 + digitVal c2, rest)
      else if fixed then none else some (digitVal c1, c2 :: rest)
    else none

/-- Go time's `leadingInt`: consume leading digits, returning the value and
the rest (overflow saturation not modelled; inputs here are at most four
characters). -/
def leadingInt (acc : Nat) : List Char → Nat × List Char
  | [] => (acc, [])
  | c :: rest =>
    if isDigitChar c then leadingInt (acc * 10 + digitVal c) rest
    else (acc, c :: rest)

/-- Go time's `atoi`: an optional sign, then `leadingInt` must consume the
whole remainder. -/
def timeAtoi (cs : List Char) : Option Int :=
  match cs with
  | '-' :: rest =>
    let p := leadingInt 0 rest
    if p.2.isEmpty then some (-(p.1 : Int)) else none
  | '+' :: rest =>
    let p := leadingInt 0 rest
    if p.2.isEmpty then some (p.1 : Int) else none
  | rest =>
    let p := leadingInt 0 rest
    if p.2.isEmpty then some (p.1 : Int) else none

/-- Gregorian leap-year rule (Go time's `isLeap`; every year reached through
these layouts is non-negative, where Go's and Lean's `%` agree). -/
def isLeap (y : Int) : Bool := y % 4 == 0 && (y % 100 != 0 || y % 400 == 0)

/-- Days in a month (Go time's `daysIn`). -/
def daysIn (month : Nat) (year : Int) : Nat :=
  if month == 2 then (if isLeap year then 29 else 28)
  else if month == 4 || month == 6 || month == 9 || month == 11 then 30
  else 31

/-- Parse the `150405` tail: hour (non-fixed), minute and second (fixed),
no text may remain, and the clock fields must be in range. -/
def parseHMS (cs : List Char) : Option (Nat × Nat × Nat) :=
  match getnum false cs with
  | none => none
  | some (hour, r1) =>
    match getnum true r1 with
    | none => none
    | some (minute, r2) =>
      match getnum true r2 with
      | none => none
      | some (sec, r3) =>
        if r3.isEmpty then
          if hour < 24 && minute < 60 && sec < 60 then some (hour, minute, sec)
          else none
        else none

/-- A parsed `(year, month, day, hour, minute, second)` UTC stamp. -/
abbrev DateTime6 := Int × Nat × Nat × Nat × Nat × Nat

/-- Go `time.Parse "20060102150405"`: four-digit year (leading digit
required, then `atoi`), fixed month and day, then the clock tail; month and
day must be in range. -/
def parseLayout20060102150405 (cs : List Char) : Option DateTime6 :=
  match cs with
  | c1 :: c2 :: c3 :: c4 :: rest =>
    if isDigitChar c1 then
      match timeAtoi [c1, c2, c3, c4] with
      | none => none
      | some year =>
        match getnum true rest with
        | none => none
        | some (month, r1) =>
          match getnum true r1 with
          | none => none
          | some (day, r2) =>
            match parseHMS r2 with
            | none => none
            | some (hour, minute, sec) =>
              if 1 ≤ month && month ≤ 12 && 1 ≤ day && day ≤ daysIn month year
              then some (year, month, day, hour, minute, sec) else none
    else none
  | _ => none

/-- Go `time.Parse "060102150405"`: two-digit year through `atoi` (which
tolerates a leading sign), mapped through the 69 cutoff (`year + 1900` from
69, `year + 2000` below), then fixed month and day and the clock tail. -/
def parseLayout060102150405 (cs : List Char) : Option DateTime6 :=
  match cs with
  | c1 :: c2 :: rest =>
    match timeAtoi [c1, c2] with
    | none => none
    | some y0 =>
      let year := if 69 ≤ y0 then y0 + 1900 else y0 + 2000
      match getnum true rest with
      | none => none
      | some (month, r1) =>
        match getnum true r1 with
        | none => none
        | some (day, r2) =>
          match parseHMS r2 with
          | none => none
          | some (hour, minute, sec) =>
            if 1 ≤ month && month ≤ 12 && 1 ≤ day && day ≤ daysIn month year
            then some (year, month, day, hour, minute, sec) else none
  | _ => none

/-- server.go `handleNewGroups` date handling (lines 590-608): concatenate
the raw date and time; an 8-character date parses under `20060102150405`, a
6-character date under `060102150405`, anything else fails. -/
def parseNewGroupsTime (rawDate rawTime : String) : Option DateTime6 :=
  let dateTime := rawDate ++ rawTime
  if rawDate.length == 8 then parseLayout20060102150405 dateTime.data
  else if rawDate.length == 6 then parseLayout060102150405 dateTime.data
  else none

/-- server.go `handleNewGroups` (lines 590-641): a date that fails to parse
is answered with the single 403 line and nothing else; on success the 231
status opens the dot-terminated list of active-format group lines (the
spool query and per-group counts behind those lines are passed in as
`groupLines`; their error paths answer 500 and are outside every claim). -/
def handleNewGroups (groupLines : List groupData) (rawDate rawTime : String) :
    Reply :=
  match parseNewGroupsTime rawDate rawTime with
  | none => .single "403 error parsing date format"
  | some _ =>
    .multi "231 list of newsgroups follows"
      (groupLines.map (fun d => d.string false))

end nntp

end RedditNntp

namespace RedditNntp

/-! ## Concrete fixtures used by the closed theorems -/

/-- A top-level article (empty parent_id) in group reddit.test. -/
def exRow : store.SpoolRow :=
  ⟨3, "reddit.test", "subj", "a <a@reddit>", "<exists.t5.reddit.nntp>", "", "body"⟩

/-- A one-article spool. -/
def exSpool : List store.SpoolRow := [exRow]

/-- The protocol header the spool facade builds for `exRow`. -/
def exHdr : data.Header :=
  ⟨3, "reddit.test", "subj", "a <a@reddit>", "<exists.t5.reddit.nntp>", [""]⟩

/-! ## Claim C1 -/

/-- C1: the claim says a STAT with an unknown explicit message-id is answered
with the single line `423 No article with that number` and the server does
not crash.  On the code, `store.GetHeaderByMsgID` returns `(nil, nil)` for
the miss, `spool.GetHeaderByMsgID` checks only the error and dereferences
the nil header (`dbHeader.PostedAt`), so the session goroutine panics
instead of replying: at the concrete input below `handleStat` reaches the
nil dereference and in particular does not produce the 423 line. -/
theorem statUnknownMsgIdNilDeref :
    nntp.handleStat exSpool "" 0 ["<missing.t5.reddit.nntp>"] = GoOut.nilDeref ∧
    nntp.handleStat exSpool "" 0 ["<missing.t5.reddit.nntp>"] ≠
      GoOut.ok ["423 No article with that number"] := by
  exact ⟨by decide, by decide⟩

/-! ## Claim C2 -/

/-- C2: the claim says `GetArticleNumsFromGroup` on a group with `c`
articles returns `[1, …, c]`.  The code allocates `make([]uint, len)` — a
slice already holding `len` zeros — and then appends the 0-based indices,
so for a one-article group it returns `[0, 0]` instead of `[1]`, and the
LISTGROUP payload at that input is the lines `0`, `0` under the status
`211 1 0 0 list follows`. -/
theorem getArticleNumsZeroBasedDuplicated :
    spool.GetArticleNumsFromGroup exSpool "reddit.test" = .ok [0, 0] ∧
    spool.GetArticleNumsFromGroup exSpool "reddit.test" ≠ .ok [1] ∧
    nntp.handleListGroup exSpool "reddit.test" nntp.noRange =
      (1, .multi "211 1 0 0 list follows" ["0", "0"]) := by
  refine ⟨by rfl, ?_, by decide⟩
  intro h
  rw [show spool.GetArticleNumsFromGroup exSpool "reddit.test" = .ok [0, 0] from rfl] at h
  injection h with h2
  exact absurd h2 (by decide)

/-! ## Claim C4 -/

/-- C4 counterexample: the claim says LISTGROUP on an existing group with
zero articles replies `211 1 1 0 list follows` with an empty payload.  On
the code, a group with no rows makes `GetArticleNumsFromGroup` return the
"no headers found" error, and `handleListGroup` answers the single line
`500 query to spool failed` instead. -/
theorem listGroupZeroArticles500 :
    nntp.handleListGroup exSpool "reddit.empty" nntp.noRange =
      (0, .single "500 query to spool failed") ∧
    nntp.handleListGroup exSpool "reddit.empty" nntp.noRange ≠
      (1, .multi "211 1 1 0 list follows" []) := by
  exact ⟨by decide, by decide⟩

/-- A successful `GetArticleNumsFromGroup` never returns an empty list (the
zero-filled prefix alone is as long as the row-id list). -/
theorem getArticleNums_ok_ne_nil (sp : List store.SpoolRow) (g : String)
    (aNums : List Nat) (h : spool.GetArticleNumsFromGroup sp g = .ok aNums) :
    aNums ≠ [] := by
  unfold spool.GetArticleNumsFromGroup at h
  by_cases hn : ((store.GetAllRowIDs sp g).length == 0)
  · simp [hn] at h
  · simp [hn] at h
    have hlen : (store.GetAllRowIDs sp g).length ≠ 0 := by simpa using hn
    subst h
    simp [List.append_eq_nil, List.replicate_eq_nil_iff, List.range_eq_nil, hlen]

/-- C4 amended: a group with zero articles (an empty row-id list) is
answered with the single line `500 query to spool failed`; the
`211 1 1 0 list follows` status with an empty payload (span=1, min=1,
max=0) is emitted when the group has articles but the requested range
filters all of them out. -/
theorem listGroupEmptyShapes (sp : List store.SpoolRow) (g : String)
    (rng : nntp.articleRange) (hg : g.length ≠ 0) :
    (store.GetAllRowIDs sp g = [] →
      nntp.handleListGroup sp g rng = (0, .single "500 query to spool failed")) ∧
    (∀ aNums, spool.GetArticleNumsFromGroup sp g = .ok aNums →
      nntp.rangeFilter rng aNums = [] →
      nntp.handleListGroup sp g rng = (1, .multi "211 1 1 0 list follows" [])) := by
  have hglt : ¬ (g.length < 1) := by omega
  constructor
  · intro hrow
    simp [nntp.handleListGroup, hglt, spool.GetArticleNumsFromGroup, hrow]
  · intro aNums hok hfil
    have hne := getArticleNums_ok_ne_nil sp g aNums hok
    have hlen : (aNums.length == 0) = false := by
      simp [List.length_eq_zero, hne]
    simp [nntp.handleListGroup, hglt, hok, hlen, hfil]
    rfl

/-- Witness for C4's amended theorem: an empty spool for the 500 branch, and
a singleton range selecting nothing for the `211 1 1 0` branch. -/
theorem listGroupEmptyShapes_witness :
    nntp.handleListGroup [] "reddit.empty" nntp.noRange =
      (0, .single "500 query to spool failed") ∧
    nntp.handleListGroup exSpool "reddit.test" ⟨5, 0, 2, true⟩ =
      (1, .multi "211 1 1 0 list follows" []) :=
  ⟨(listGroupEmptyShapes [] "reddit.empty" nntp.noRange (by decide)).1 rfl,
   (listGroupEmptyShapes exSpool "reddit.test" ⟨5, 0, 2, true⟩ (by decide)).2
     [0, 0] (by rfl) (by decide)⟩

/-! ## Claim C5 -/

/-- C5 counterexample: the claim says HEAD with a message-id argument is
answered (221 on hit, 423 on miss) even with no current group.  The HEAD
dispatch checks the current group before looking at the argument: with no
group set, even a message-id that is present in the spool is answered
`500 No active group set. Server error.` — neither a 423 line nor any 221
multi-line reply. -/
theorem headMsgIdNoGroupCounterexample :
    nntp.headStep exSpool "" ["<exists.t5.reddit.nntp>"] =
      .ok (.single "500 No active group set. Server error.") ∧
    nntp.headStep exSpool "" ["<exists.t5.reddit.nntp>"] ≠
      .ok (.single "423 No article with that number") ∧
    (match nntp.headStep exSpool "" ["<exists.t5.reddit.nntp>"] with
      | .ok (.multi s _) => s.startsWith "221"
      | _ => false) = false := by
  exact ⟨by decide, by decide, by decide⟩

/-- A message-id argument is never the empty string. -/
theorem isMessageID_length_ne_zero (s : String) (h : nntp.isMessageID s = true) :
    s.length ≠ 0 := by
  intro h0
  simp [nntp.isMessageID, h0] at h

/-- C5 amended: HEAD requires a current group for every argument form — with
no current group set the reply is always `500 No active group set. Server
error.`, message-id arguments included; when a group is set, a message-id
hit is answered with the 221 status and the rendered header block. -/
theorem headRequiresGroupAlways (sp : List store.SpoolRow) (args : List String) :
    nntp.headStep sp "" args =
      .ok (.single "500 No active group set. Server error.") ∧
    (∀ g arg hdr, g.length ≠ 0 → nntp.isMessageID arg = true →
      spool.GetHeaderByMsgID sp arg = .ok hdr →
      nntp.headStep sp g [arg] =
        .ok (.multi ("221 0 " ++ hdr.msgID) [data.Header.Bytes hdr])) := by
  constructor
  · simp [nntp.headStep]
  · intro g arg hdr hg hmsg hget
    have harg : arg.length ≠ 0 := isMessageID_length_ne_zero arg hmsg
    simp [nntp.headStep, nntp.printHead, hg, harg, hmsg, hget]

/-- Witness for C5's amended theorem at concrete inputs. -/
theorem headRequiresGroupAlways_witness :
    nntp.headStep exSpool "" ["<exists.t5.reddit.nntp>"] =
      .ok (.single "500 No active group set. Server error.") ∧
    nntp.headStep exSpool "reddit.test" ["<exists.t5.reddit.nntp>"] =
      .ok (.multi ("221 0 " ++ exHdr.msgID) [data.Header.Bytes exHdr]) :=
  ⟨(headRequiresGroupAlways exSpool ["<exists.t5.reddit.nntp>"]).1,
   (headRequiresGroupAlways exSpool ["<exists.t5.reddit.nntp>"]).2
     "reddit.test" "<exists.t5.reddit.nntp>" exHdr (by decide) (by decide) (by rfl)⟩

/-! ## Claim C6 -/

/-- C6: GROUP on a known group with count `c > 0` replies
`211 <est> <low> <high> <name>` with est = c-1, low = 1, high = c, and the
session's current group becomes the group with current article number 1;
with count 0 the reply carries est=1, low=0, high=1, the group is still
selected, and the current article number is not modified by the command. -/
theorem groupCommandSpec (ngs : List String) (st : nntp.Session) (g : String)
    (c : Nat) (hmem : ngs.contains g = true) :
    (0 < c → nntp.groupCommand (.ok ngs) st [g] (.ok c) =
      (⟨g, 1⟩, .single ("211 " ++
        (toString (c - 1) ++ " " ++ toString 1 ++ " " ++ toString c ++ " " ++ g)))) ∧
    (nntp.groupCommand (.ok ngs) st [g] (.ok 0) =
      ({ st with curGroup := g }, .single ("211 " ++
        (toString 1 ++ " " ++ toString 0 ++ " " ++ toString 1 ++ " " ++ g))) ∧
     ({ st with curGroup := g } : nntp.Session).curArticleNum = st.curArticleNum) := by
  have hmem2 : g ∈ ngs := by simpa using hmem
  refine ⟨?_, ?_, rfl⟩
  · intro hc
    have hc0 : (c == 0) = false := by simp [Nat.pos_iff_ne_zero.mp hc]
    simp [nntp.groupCommand, hmem2, nntp.handleGroup, hc0, nntp.groupData.string]
  · simp [nntp.groupCommand, hmem2, nntp.handleGroup, nntp.groupData.string]

/-- Witness for C6 at a concrete session and counts 2 and 0. -/
theorem groupCommandSpec_witness :
    nntp.groupCommand (.ok ["reddit.test"]) ⟨"", 0⟩ ["reddit.test"] (.ok 2) =
      (⟨"reddit.test", 1⟩, .single ("211 " ++
        (toString 1 ++ " " ++ toString 1 ++ " " ++ toString 2 ++ " " ++ "reddit.test"))) ∧
    nntp.groupCommand (.ok ["reddit.test"]) ⟨"old.group", 7⟩ ["reddit.test"] (.ok 0) =
      (⟨"reddit.test", 7⟩, .single ("211 " ++
        (toString 1 ++ " " ++ toString 0 ++ " " ++ toString 1 ++ " " ++ "reddit.test"))) :=
  ⟨(groupCommandSpec ["reddit.test"] ⟨"", 0⟩ "reddit.test" 2 (by decide)).1 (by decide),
   ((groupCommandSpec ["reddit.test"] ⟨"old.group", 7⟩ "reddit.test" 0 (by decide)).2).1⟩

/-! ## Claim C7 -/

/-- C7: `ArticleNumToRowIDCached` returns, in the order the code checks:
the "cannot serve" error when n < 1; the "no headers found" error when the
fetched row-id list is empty (n ≥ 1); the `ArticleNumNotFound` sentinel
when n exceeds the list length (list non-empty, n ≥ 1); and the (n-1)-th
row id when 1 ≤ n ≤ length. -/
theorem articleNumToRowIDCachedSpec (g : String) (rowIDs : List Nat) (n : Nat) :
    (n < 1 → spool.ArticleNumToRowIDCached g rowIDs n =
      .error (.msg ("cannot serve article #" ++ toString n))) ∧
    (1 ≤ n → rowIDs = [] → spool.ArticleNumToRowIDCached g rowIDs n =
      .error (.msg ("no headers found for group " ++ g))) ∧
    (1 ≤ n → rowIDs ≠ [] → rowIDs.length < n →
      spool.ArticleNumToRowIDCached g rowIDs n = .error .articleNumNotFound) ∧
    (∀ hn : 1 ≤ n, ∀ hle : n ≤ rowIDs.length,
      spool.ArticleNumToRowIDCached g rowIDs n =
        .ok (rowIDs.get ⟨n - 1, by omega⟩)) := by
  refine ⟨?_, ?_, ?_, ?_⟩
  · intro hn
    simp [spool.ArticleNumToRowIDCached, hn]
  · intro hn hnil
    simp [spool.ArticleNumToRowIDCached, hnil, Nat.not_lt.mpr hn]
  · intro hn hne hlen
    have h0 : (rowIDs.length == 0) = false := by
      simp [List.length_eq_zero, hne]
    simp [spool.ArticleNumToRowIDCached, Nat.not_lt.mpr hn, h0, hlen]
  · intro hn hle
    have hne : rowIDs ≠ [] := by
      intro h; subst h; simp at hle; omega
    have h0 : (rowIDs.length == 0) = false := by
      simp [List.length_eq_zero, hne]
    have hb : n - 1 < rowIDs.length := by omega
    simp [spool.ArticleNumToRowIDCached, Nat.not_lt.mpr hn, h0,
      Nat.not_lt.mpr hle, List.get_eq_getElem, List.getElem?_eq_getElem hb]

/-- Witness for C7 over the list [7, 9]: each branch at a concrete input. -/
theorem articleNumToRowIDCachedSpec_witness :
    spool.ArticleNumToRowIDCached "g" [7, 9] 0 =
      .error (.msg ("cannot serve article #" ++ toString 0)) ∧
    spool.ArticleNumToRowIDCached "g" [] 1 =
      .error (.msg ("no headers found for group " ++ "g")) ∧
    spool.ArticleNumToRowIDCached "g" [7, 9] 3 = .error .articleNumNotFound ∧
    spool.ArticleNumToRowIDCached "g" [7, 9] 2 = .ok ([7, 9].get ⟨1, by decide⟩) :=
  ⟨(articleNumToRowIDCachedSpec "g" [7, 9] 0).1 (by decide),
   (articleNumToRowIDCachedSpec "g" [] 1).2.1 (by decide) rfl,
   (articleNumToRowIDCachedSpec "g" [7, 9] 3).2.2.1 (by decide) (by decide) (by decide),
   (articleNumToRowIDCachedSpec "g" [7, 9] 2).2.2.2 (by decide) (by decide)⟩

/-! ## Claim C10 -/

/-- C10: when the article-count query fails during GROUP on a known group,
the reply is the single line `403 error reading from spool` and the session
is returned exactly as it was — current group and current article number
keep their previous values. -/
theorem groupCommandCountErrorKeepsState (ngs : List String) (st : nntp.Session)
    (g : String) (hmem : ngs.contains g = true) :
    nntp.groupCommand (.ok ngs) st [g] (.error ()) =
      (st, .single "403 error reading from spool") ∧
    (nntp.groupCommand (.ok ngs) st [g] (.error ())).1.curGroup = st.curGroup ∧
    (nntp.groupCommand (.ok ngs) st [g] (.error ())).1.curArticleNum =
      st.curArticleNum := by
  have hmem2 : g ∈ ngs := by simpa using hmem
  have h : nntp.groupCommand (.ok ngs) st [g] (.error ()) =
      (st, .single "403 error reading from spool") := by
    simp [nntp.groupCommand, hmem2, nntp.handleGroup]
  exact ⟨h, by rw [h], by rw [h]⟩

/-- Witness for C10 at a concrete session. -/
theorem groupCommandCountErrorKeepsState_witness :
    nntp.groupCommand (.ok ["reddit.test"]) ⟨"old.group", 5⟩ ["reddit.test"]
      (.error ()) = (⟨"old.group", 5⟩, .single "403 error reading from spool") :=
  (groupCommandCountErrorKeepsState ["reddit.test"] ⟨"old.group", 5⟩ "reddit.test"
    (by decide)).1

/-! ## Claim C3 -/

/-- C3 counterexample: the claim says the header rendered for a top-level
post (stored parent_id empty) contains no References line.  The spool
facade builds every header with the one-element references list
`[parent_id]`, so the header fetched for the top-level article `exRow`
carries `references = [""]` — a non-empty list — and its rendered block
does contain a References line (with empty content). -/
theorem topLevelHeaderHasReferencesLine :
    spool.GetHeaderByNGNum exSpool "reddit.test" 1 = .ok (some exHdr) ∧
    exHdr.references = [""] ∧
    hasReferencesLine (data.Header.Bytes exHdr) = true := by
  exact ⟨by decide, by decide, by decide⟩

/-- `charLines` never returns the empty list. -/
theorem charLines_ne_nil (cs : List Char) : charLines cs ≠ [] := by
  cases cs with
  | nil => simp [charLines]
  | cons c rest =>
    unfold charLines
    by_cases hc : c = '\n'
    · simp [hc]
    · simp only [hc, if_false]
      cases charLines rest with
      | nil => simp
      | cons l ls => simp

/-- One-step unfolding of `charLines` on a cons cell. -/
theorem charLines_cons (c : Char) (rest : List Char) :
    charLines (c :: rest) =
      if c = '\n' then [] :: charLines rest
      else match charLines rest with
        | [] => [[c]]
        | l :: ls => (c :: l) :: ls := rfl

/-- Splitting at a newline that follows newline-free text yields that text
as the first line. -/
theorem charLines_append_no_nl (xs ys : List Char) (h : '\n' ∉ xs) :
    charLines (xs ++ '\n' :: ys) = xs :: charLines ys := by
  induction xs with
  | nil => simp [charLines]
  | cons c rest ih =>
    have hc : c ≠ '\n' := by intro hh; exact h (hh ▸ List.mem_cons_self c rest)
    have hr : '\n' ∉ rest := fun hh => h (List.mem_cons_of_mem c hh)
    rw [List.cons_append, charLines_cons, if_neg hc, ih hr]

/-- The first line of a block that begins with newline-free text begins with
that text. -/
theorem charLines_append_head (p q : List Char) (hp : '\n' ∉ p) :
    ∃ l ls, charLines q = l :: ls ∧ charLines (p ++ q) = (p ++ l) :: ls := by
  induction p with
  | nil =>
    cases hq : charLines q with
    | nil => exact absurd hq (charLines_ne_nil q)
    | cons l ls => exact ⟨l, ls, rfl, by simp [hq]⟩
  | cons c rest ih =>
    have hc : c ≠ '\n' := by intro hh; exact hp (hh ▸ List.mem_cons_self c rest)
    have hr : '\n' ∉ rest := fun hh => hp (List.mem_cons_of_mem c hh)
    obtain ⟨l, ls, hq, hrec⟩ := ih hr
    refine ⟨l, ls, hq, ?_⟩
    rw [List.cons_append, charLines_cons, if_neg hc, hrec]
    simp

/-- A pattern begins every list it is appended in front of. -/
theorem startsWithChars_append_self (p t : List Char) :
    data.startsWithChars p (p ++ t) = true := by
  induction p with
  | nil => simp [data.startsWithChars]
  | cons c rest ih => simp [data.startsWithChars, ih]

/-- A line whose first character differs from `R` does not start with the
References label. -/
theorem startsWith_refLabel_false (c : Char) (rest : List Char)
    (hc : (('R' : Char) == c) = false) :
    data.startsWithChars ("References: ".data) (c :: rest) = false := by
  rw [show ("References: ".data) = 'R' :: "eferences: ".data from rfl]
  simp [data.startsWithChars, hc]

/-- The References label does not start an empty line. -/
theorem startsWith_refLabel_nil :
    data.startsWithChars ("References: ".data) [] = false := by decide

/-- The rendered header block split at each field newline. -/
theorem bytes_data_split (h : data.Header) :
    (data.Header.Bytes h).data =
      "Path: reddit!not-for-mail".data ++ '\n' ::
      ("From: ".data ++ h.author.data ++ '\n' ::
      ("Newsgroups: ".data ++ h.newsgroup.data ++ '\n' ::
      ("Subject: ".data ++ (data.unQuoteHTMLString h.subject).data ++ '\n' ::
      ("Date: ".data ++ (data.formatNntpTime h.postedAt).data ++ '\n' ::
      ("Message-ID: ".data ++ h.msgID.data ++ '\n' ::
      ((if h.references.length > 0 then
          "References: " ++ String.intercalate "," h.references
        else "").data ++ ['\n'])))))) := by
  simp [data.Header.Bytes, String.data_append, List.append_assoc,
    show ("Path: reddit!not-for-mail\n" : String).data
      = "Path: reddit!not-for-mail".data ++ ['\n'] from rfl,
    show ("\n" : String).data = ['\n'] from rfl]

/-- C3 amended: in a rendered header block whose fields contain no newline,
a References line appears if and only if the references list is non-empty;
however, every header the spool facade returns carries the one-element
references list `[parent_id]`, so the rendered header of a top-level post
(empty parent_id) still contains a References line. -/
theorem referencesLineIffNonempty (h : data.Header)
    (ha : '\n' ∉ h.author.data) (hn : '\n' ∉ h.newsgroup.data)
    (hs : '\n' ∉ (data.unQuoteHTMLString h.subject).data)
    (hd : '\n' ∉ (data.formatNntpTime h.postedAt).data)
    (hm : '\n' ∉ h.msgID.data) :
    hasReferencesLine (data.Header.Bytes h) = !h.references.isEmpty ∧
    (∀ sp g n hdr, spool.GetHeaderByNGNum sp g n = GoOut.ok (some hdr) →
      ∃ pid, hdr.references = [pid]) := by
  constructor
  · have hL1 : '\n' ∉ "Path: reddit!not-for-mail".data := by decide
    have hL2 : '\n' ∉ "From: ".data ++ h.author.data := by
      simp [List.mem_append, ha]
    have hL3 : '\n' ∉ "Newsgroups: ".data ++ h.newsgroup.data := by
      simp [List.mem_append, hn]
    have hL4 : '\n' ∉ "Subject: ".data ++ (data.unQuoteHTMLString h.subject).data := by
      simp [List.mem_append, hs]
    have hL5 : '\n' ∉ "Date: ".data ++ (data.formatNntpTime h.postedAt).data := by
      simp [List.mem_append, hd]
    have hL6 : '\n' ∉ "Message-ID: ".data ++ h.msgID.data := by
      simp [List.mem_append, hm]
    rw [hasReferencesLine, bytes_data_split h,
      charLines_append_no_nl _ _ hL1, charLines_append_no_nl _ _ hL2,
      charLines_append_no_nl _ _ hL3, charLines_append_no_nl _ _ hL4,
      charLines_append_no_nl _ _ hL5, charLines_append_no_nl _ _ hL6]
    cases href : h.references with
    | nil =>
      simp only [href, List.length_nil, gt_iff_lt, Nat.lt_irrefl, if_false]
      rw [show (("" : String).data ++ ['\n']) = ['\n'] from rfl]
      rw [show charLines ['\n'] = [[], []] from rfl]
      simp only [List.any_cons, List.any_nil,
        startsWith_refLabel_false _ _ (show (('R' : Char) == 'P') = false from rfl),
        show ("From: ".data ++ h.author.data)
          = 'F' :: ("rom: ".data ++ h.author.data) from rfl,
        show ("Newsgroups: ".data ++ h.newsgroup.data)
          = 'N' :: ("ewsgroups: ".data ++ h.newsgroup.data) from rfl,
        show ("Subject: ".data ++ (data.unQuoteHTMLString h.subject).data)
          = 'S' :: ("ubject: ".data ++ (data.unQuoteHTMLString h.subject).data) from rfl,
        show ("Date: ".data ++ (data.formatNntpTime h.postedAt).data)
          = 'D' :: ("ate: ".data ++ (data.formatNntpTime h.postedAt).data) from rfl,
        show ("Message-ID: ".data ++ h.msgID.data)
          = 'M' :: ("essage-ID: ".data ++ h.msgID.data) from rfl,
        startsWith_refLabel_false _ _ (show (('R' : Char) == 'F') = false from rfl),
        startsWith_refLabel_false _ _ (show (('R' : Char) == 'N') = false from rfl),
        startsWith_refLabel_false _ _ (show (('R' : Char) == 'S') = false from rfl),
        startsWith_refLabel_false _ _ (show (('R' : Char) == 'D') = false from rfl),
        startsWith_refLabel_false _ _ (show (('R' : Char) == 'M') = false from rfl),
        startsWith_refLabel_nil,
        show ("Path: reddit!not-for-mail".data)
          = 'P' :: "ath: reddit!not-for-mail".data from rfl]
      decide
    | cons r rs =>
      simp only [href, List.length_cons, if_pos (Nat.succ_pos rs.length)]
      have hsplit : (("References: " ++ String.intercalate "," (r :: rs)).data
          ++ ['\n'])
          = "References: ".data ++ ((String.intercalate "," (r :: rs)).data
            ++ ['\n']) := by
        simp [String.data_append, List.append_assoc]
      rw [hsplit]
      have hpnl : '\n' ∉ "References: ".data := by decide
      obtain ⟨l, ls, _, hcl⟩ := charLines_append_head "References: ".data
        ((String.intercalate "," (r :: rs)).data ++ ['\n']) hpnl
      rw [hcl]
      rw [show (!(r :: rs).isEmpty) = true from rfl]
      rw [List.any_eq_true]
      refine ⟨"References: ".data ++ l, ?_, startsWithChars_append_self _ _⟩
      exact List.mem_cons_of_mem _ (List.mem_cons_of_mem _ (List.mem_cons_of_mem _
        (List.mem_cons_of_mem _ (List.mem_cons_of_mem _ (List.mem_cons_of_mem _
          (List.mem_cons_self _ _))))))
  · intro sp g n hdr hok
    unfold spool.GetHeaderByNGNum at hok
    split at hok
    · simp at hok
    · simp at hok
    · split at hok
      · simp at hok
      · rename_i dbHeader _
        refine ⟨dbHeader.parentID, ?_⟩
        have := (GoOut.ok.inj hok)
        have h2 := Option.some.inj this
        rw [← h2]

/-- Witness for C3's amended theorem at `exHdr` (all fields newline-free;
its references list `[""]` is non-empty and the References line appears). -/
theorem referencesLineIffNonempty_witness :
    hasReferencesLine (data.Header.Bytes exHdr) = !exHdr.references.isEmpty ∧
    exHdr.references ≠ [] :=
  ⟨(referencesLineIffNonempty exHdr (by decide) (by decide) (by decide)
      (by decide) (by decide)).1, by decide⟩

/-! ## Claim C9 -/

/-- C9 counterexample: the claim says the date is accepted exactly when it
is 6 digits or 8 digits (followed by a 6-digit time), everything else
answering 403.  The 6-character branch parses its 2-digit year with Go
time's `atoi`, which accepts a leading sign: the date `+10203` (not six
digits) concatenated with `000000` parses as 2001-02-03 00:00:00 and
NEWGROUPS answers with the 231 list, not with 403. -/
theorem newGroupsSignedYearAccepted :
    nntp.parseNewGroupsTime "+10203" "000000" = some (2001, 2, 3, 0, 0, 0) ∧
    nntp.handleNewGroups [] "+10203" "000000" =
      .multi "231 list of newsgroups follows" [] ∧
    nntp.handleNewGroups [] "+10203" "000000" ≠
      .single "403 error parsing date format" ∧
    ("+10203".data.all nntp.isDigitChar) = false := by
  exact ⟨by decide, by decide, by decide, by decide⟩

/-- If Go time's leadingInt consumed its whole input, every character was a digit. -/
theorem leadingInt_all_digits (cs : List Char) : ∀ acc,
    (nntp.leadingInt acc cs).2 = [] → cs.all nntp.isDigitChar = true := by
  induction cs with
  | nil => intro acc _; rfl
  | cons c rest ih =>
    intro acc h
    rw [show nntp.leadingInt acc (c :: rest) =
        (if nntp.isDigitChar c then nntp.leadingInt (acc * 10 + nntp.digitVal c) rest
         else (acc, c :: rest)) from rfl] at h
    by_cases hd : nntp.isDigitChar c
    · rw [if_pos hd] at h
      simp [List.all_cons, hd, ih _ h]
    · rw [if_neg hd] at h
      simp at h

/-- A successful fixed-width getnum consumed exactly two digit characters. -/
theorem getnum_fixed_inv (cs : List Char) (v : Nat) (rest : List Char)
    (h : nntp.getnum true cs = some (v, rest)) :
    ∃ c1 c2, cs = c1 :: c2 :: rest ∧ nntp.isDigitChar c1 = true ∧
      nntp.isDigitChar c2 = true := by
  cases cs with
  | nil => simp [nntp.getnum] at h
  | cons c1 tail =>
    cases tail with
    | nil =>
      by_cases h1 : nntp.isDigitChar c1 <;> simp [nntp.getnum, h1] at h
    | cons c2 tail2 =>
      by_cases h1 : nntp.isDigitChar c1
      · by_cases h2 : nntp.isDigitChar c2
        · simp [nntp.getnum, h1, h2] at h
          exact ⟨c1, c2, by rw [h.2], h1, h2⟩
        · simp [nntp.getnum, h1, h2] at h
      · simp [nntp.getnum, h1] at h

/-- A successful non-fixed getnum consumed two digits, or one digit not followed by a digit. -/
theorem getnum_nonfixed_inv (cs : List Char) (v : Nat) (rest : List Char)
    (h : nntp.getnum false cs = some (v, rest)) :
    (∃ c1 c2, cs = c1 :: c2 :: rest ∧ nntp.isDigitChar c1 = true ∧
      nntp.isDigitChar c2 = true) ∨
    (∃ c1, cs = c1 :: rest ∧ nntp.isDigitChar c1 = true ∧
      (∀ c2 t, rest = c2 :: t → nntp.isDigitChar c2 = false)) := by
  cases cs with
  | nil => simp [nntp.getnum] at h
  | cons c1 tail =>
    cases tail with
    | nil =>
      by_cases h1 : nntp.isDigitChar c1
      · simp [nntp.getnum, h1] at h
        refine Or.inr ⟨c1, by rw [h.2], h1, ?_⟩
        intro c2 t ht
        rw [h.2] at ht
        cases ht
      · simp [nntp.getnum, h1] at h
    | cons c2 tail2 =>
      by_cases h1 : nntp.isDigitChar c1
      · by_cases h2 : nntp.isDigitChar c2
        · simp [nntp.getnum, h1, h2] at h
          exact Or.inl ⟨c1, c2, by rw [h.2], h1, h2⟩
        · simp [nntp.getnum, h1, h2] at h
          refine Or.inr ⟨c1, by rw [h.2], h1, ?_⟩
          intro c2' t ht
          rw [← h.2] at ht
          injection ht with hc2 _
          rw [hc2] at h2
          simpa using h2
      · simp [nntp.getnum, h1] at h

/-- A clock tail that parses is exactly six digit characters. -/
theorem parseHMS_inv (cs : List Char) (v : Nat × Nat × Nat)
    (h : nntp.parseHMS cs = some v) :
    cs.length = 6 ∧ cs.all nntp.isDigitChar = true := by
  unfold nntp.parseHMS at h
  cases hh : nntp.getnum false cs with
  | none => simp only [hh] at h; cases h
  | some p =>
    obtain ⟨hour, r1⟩ := p
    simp only [hh] at h
    cases hm : nntp.getnum true r1 with
    | none => simp only [hm] at h; cases h
    | some p2 =>
      obtain ⟨minute, r2⟩ := p2
      simp only [hm] at h
      cases hs2 : nntp.getnum true r2 with
      | none => simp only [hs2] at h; cases h
      | some p3 =>
        obtain ⟨sec, r3⟩ := p3
        simp only [hs2] at h
        have hr3 : r3 = [] := by
          by_cases hr : r3 = []
          · exact hr
          · have : r3.isEmpty = false := by simp [List.isEmpty_iff, hr]
            rw [this] at h
            simp at h
        subst hr3
        obtain ⟨d3, d4, hr1eq, hd3, hd4⟩ := getnum_fixed_inv r1 minute r2 hm
        obtain ⟨d5, d6, hr2eq, hd5, hd6⟩ := getnum_fixed_inv r2 sec [] hs2
        rcases getnum_nonfixed_inv cs hour r1 hh with
          ⟨d1, d2, hcseq, hd1, hd2⟩ | ⟨d1, hcseq, hd1, hnext⟩
        · subst hcseq; subst hr1eq; subst hr2eq
          simp [List.all_cons, hd1, hd2, hd3, hd4, hd5, hd6]
        · have := hnext d3 (d4 :: r2) hr1eq
          rw [hd3] at this
          cases this

/-- When its first character is a digit, a successful time-atoi input is all digits. -/
theorem timeAtoi_digit_head_all (c1 : Char) (rest : List Char) (y : Int)
    (h1 : nntp.isDigitChar c1 = true)
    (h : nntp.timeAtoi (c1 :: rest) = some y) :
    (c1 :: rest).all nntp.isDigitChar = true := by
  have hne : c1 ≠ '-' := by intro he; rw [he] at h1; exact absurd h1 (by decide)
  have hne2 : c1 ≠ '+' := by intro he; rw [he] at h1; exact absurd h1 (by decide)
  unfold nntp.timeAtoi at h
  split at h
  · rename_i r heq
    injection heq with hc _
    exact absurd hc hne
  · rename_i r heq
    injection heq with hc _
    exact absurd hc hne2
  · rename_i r heq1 heq2
    by_cases hre : (nntp.leadingInt 0 (c1 :: rest)).2.isEmpty
    · have hrem : (nntp.leadingInt 0 (c1 :: rest)).2 = [] := by
        simpa [List.isEmpty_iff] using hre
      exact leadingInt_all_digits (c1 :: rest) 0 hrem
    · simp [hre] at h

/-- A two-character time-atoi success: the first character is a digit or a sign, the second a digit. -/
theorem timeAtoi_pair_inv (c1 c2 : Char) (y : Int)
    (h : nntp.timeAtoi [c1, c2] = some y) :
    (nntp.isDigitChar c1 = true ∨ c1 = '-' ∨ c1 = '+') ∧
      nntp.isDigitChar c2 = true := by
  unfold nntp.timeAtoi at h
  split at h
  · rename_i r heq
    injection heq with hc ht
    subst ht
    refine ⟨Or.inr (Or.inl hc), ?_⟩
    by_cases hd2 : nntp.isDigitChar c2
    · exact hd2
    · rw [show nntp.leadingInt 0 [c2] =
          (if nntp.isDigitChar c2 then nntp.leadingInt (0 * 10 + nntp.digitVal c2) []
           else (0, [c2])) from rfl, if_neg hd2] at h
      simp at h
  · rename_i r heq
    injection heq with hc ht
    subst ht
    refine ⟨Or.inr (Or.inr hc), ?_⟩
    by_cases hd2 : nntp.isDigitChar c2
    · exact hd2
    · rw [show nntp.leadingInt 0 [c2] =
          (if nntp.isDigitChar c2 then nntp.leadingInt (0 * 10 + nntp.digitVal c2) []
           else (0, [c2])) from rfl, if_neg hd2] at h
      simp at h
  · rename_i r heq1 heq2
    by_cases hre : (nntp.leadingInt 0 [c1, c2]).2.isEmpty
    · have hrem : (nntp.leadingInt 0 [c1, c2]).2 = [] := by
        simpa [List.isEmpty_iff] using hre
      have hall := leadingInt_all_digits [c1, c2] 0 hrem
      simp [List.all_cons] at hall
      exact ⟨Or.inl hall.1, hall.2⟩
    · simp [hre] at h

/-- An accepted 20060102150405 input is exactly fourteen digit characters. -/
theorem parseLayout8_inv (cs : List Char) (v : nntp.DateTime6)
    (h : nntp.parseLayout20060102150405 cs = some v) :
    cs.length = 14 ∧ cs.all nntp.isDigitChar = true := by
  unfold nntp.parseLayout20060102150405 at h
  split at h
  case h_2 => cases h
  case h_1 c1 c2 c3 c4 rest =>
    by_cases h1 : nntp.isDigitChar c1
    · rw [if_pos h1] at h
      cases hy : nntp.timeAtoi [c1, c2, c3, c4] with
      | none => simp only [hy] at h; cases h
      | some year =>
        simp only [hy] at h
        cases hmo : nntp.getnum true rest with
        | none => simp only [hmo] at h; cases h
        | some p1 =>
          obtain ⟨month, r1⟩ := p1
          simp only [hmo] at h
          cases hda : nntp.getnum true r1 with
          | none => simp only [hda] at h; cases h
          | some p2 =>
            obtain ⟨day, r2⟩ := p2
            simp only [hda] at h
            cases hhms : nntp.parseHMS r2 with
            | none => simp only [hhms] at h; cases h
            | some p3 =>
              obtain ⟨hour, minute, sec⟩ := p3
              have hy4 := timeAtoi_digit_head_all c1 [c2, c3, c4] year h1 hy
              obtain ⟨d5, d6, hreq, hd5, hd6⟩ := getnum_fixed_inv rest month r1 hmo
              obtain ⟨d7, d8, hr1eq, hd7, hd8⟩ := getnum_fixed_inv r1 day r2 hda
              obtain ⟨hr2len, hr2all⟩ := parseHMS_inv r2 (hour, minute, sec) hhms
              subst hreq; subst hr1eq
              simp [List.all_cons, Bool.and_eq_true] at hy4
              constructor
              · simp [hr2len]
              · simp [List.all_cons, hy4.1, hy4.2.1, hy4.2.2.1, hy4.2.2.2,
                  hd5, hd6, hd7, hd8, hr2all]
    · rw [if_neg h1] at h
      cases h

/-- An accepted 060102150405 input has twelve characters: a digit-or-sign, a digit, then ten digits. -/
theorem parseLayout6_inv (cs : List Char) (v : nntp.DateTime6)
    (h : nntp.parseLayout060102150405 cs = some v) :
    ∃ c1 c2 rest, cs = c1 :: c2 :: rest ∧ cs.length = 12 ∧
      (nntp.isDigitChar c1 = true ∨ c1 = '-' ∨ c1 = '+') ∧
      nntp.isDigitChar c2 = true ∧ rest.all nntp.isDigitChar = true := by
  unfold nntp.parseLayout060102150405 at h
  split at h
  case h_2 => cases h
  case h_1 c1 c2 rest =>
    cases hy : nntp.timeAtoi [c1, c2] with
    | none => simp only [hy] at h; cases h
    | some y0 =>
      simp only [hy] at h
      cases hmo : nntp.getnum true rest with
      | none => simp only [hmo] at h; cases h
      | some p1 =>
        obtain ⟨month, r1⟩ := p1
        simp only [hmo] at h
        cases hda : nntp.getnum true r1 with
        | none => simp only [hda] at h; cases h
        | some p2 =>
          obtain ⟨day, r2⟩ := p2
          simp only [hda] at h
          cases hhms : nntp.parseHMS r2 with
          | none => simp only [hhms] at h; cases h
          | some p3 =>
            obtain ⟨hour, minute, sec⟩ := p3
            obtain ⟨hshape, hc2⟩ := timeAtoi_pair_inv c1 c2 y0 hy
            obtain ⟨d5, d6, hreq, hd5, hd6⟩ := getnum_fixed_inv rest month r1 hmo
            obtain ⟨d7, d8, hr1eq, hd7, hd8⟩ := getnum_fixed_inv r1 day r2 hda
            obtain ⟨hr2len, hr2all⟩ := parseHMS_inv r2 (hour, minute, sec) hhms
            subst hreq; subst hr1eq
            refine ⟨c1, c2, _, rfl, by simp [hr2len], hshape, hc2, ?_⟩
            simp [List.all_cons, hd5, hd6, hd7, hd8, hr2all]

/-- Shape necessity for an accepted NEWGROUPS date-time: the time is six digits; an 8-character date is all digits; a 6-character date is all digits past its (possibly signed) 2-digit year. -/
theorem parseNewGroupsTime_shape (rawDate rawTime : String) (v : nntp.DateTime6)
    (h : nntp.parseNewGroupsTime rawDate rawTime = some v) :
    rawTime.data.length = 6 ∧ rawTime.data.all nntp.isDigitChar = true ∧
    (rawDate.length = 8 → rawDate.data.all nntp.isDigitChar = true) ∧
    (rawDate.length = 6 → (rawDate.data.drop 2).all nntp.isDigitChar = true) := by
  have hlen : ∀ s : String, s.length = s.data.length := fun _ => rfl
  have hdat : (rawDate ++ rawTime).data = rawDate.data ++ rawTime.data :=
    String.data_append rawDate rawTime
  unfold nntp.parseNewGroupsTime at h
  by_cases h8 : rawDate.length = 8
  · rw [if_pos (by simp [h8])] at h
    rw [hdat] at h
    obtain ⟨hl, hall⟩ := parseLayout8_inv _ v h
    rw [List.length_append] at hl
    have hd8 : rawDate.data.length = 8 := by rw [← hlen]; exact h8
    rw [List.all_append, Bool.and_eq_true] at hall
    exact ⟨by omega, hall.2, fun _ => hall.1, fun h6 => by omega⟩
  · rw [if_neg (by simpa using h8)] at h
    by_cases h6 : rawDate.length = 6
    · rw [if_pos (by simp [h6])] at h
      rw [hdat] at h
      obtain ⟨c1, c2, rest, hcseq, hl, hshape, hc2, hrall⟩ := parseLayout6_inv _ v h
      have hd6 : rawDate.data.length = 6 := by rw [← hlen]; exact h6
      have hlc : (rawDate.data ++ rawTime.data).length = 12 := by rw [hcseq] at hl ⊢; exact hl
      rw [List.length_append] at hlc
      have hdrop : rawDate.data.drop 2 ++ rawTime.data = rest := by
        have h2 : (rawDate.data ++ rawTime.data).drop 2 = rest := by
          rw [hcseq]
          rfl
        rw [List.drop_append_eq_append_drop] at h2
        simpa [hd6] using h2
      rw [← hdrop, List.all_append, Bool.and_eq_true] at hrall
      exact ⟨by omega, hrall.2, fun h8' => by omega, fun _ => hrall.1⟩
    · rw [if_neg (by simpa using h6)] at h
      cases h

/-- C9 amended: NEWGROUPS accepts the date exactly when it has length 6 or
length 8 and the concatenation with the time parses under the corresponding
Go layout (`060102150405` / `20060102150405`) as a UTC timestamp — for
length 6 the two-digit year field may also carry a leading sign; any other
date length, and any failed parse, is answered with the single line
`403 error parsing date format` and no group list, while a successful
parse is answered with the 231 status and the group list.  Conversely,
every accepted input is well-shaped: the time is exactly 6 digits, an
8-character date is all digits, and a 6-character date is all digits apart
from its possibly signed 2-digit year.  The closed conjuncts anchor the
parser model: an 8-digit date with a 6-digit time is accepted, leap days
are checked, and a 7-character date, a 5-digit time, and a non-digit date
character are all rejected. -/
theorem newGroupsDateSpec (gl : List nntp.groupData) (rawDate rawTime : String) :
    (rawDate.length ≠ 6 → rawDate.length ≠ 8 →
      nntp.handleNewGroups gl rawDate rawTime =
        .single "403 error parsing date format") ∧
    (nntp.parseNewGroupsTime rawDate rawTime = none →
      nntp.handleNewGroups gl rawDate rawTime =
        .single "403 error parsing date format") ∧
    (∀ v, nntp.parseNewGroupsTime rawDate rawTime = some v →
      nntp.handleNewGroups gl rawDate rawTime =
        .multi "231 list of newsgroups follows"
          (gl.map (fun d => d.string false))) ∧
    (∀ v, nntp.parseNewGroupsTime rawDate rawTime = some v →
      rawTime.data.length = 6 ∧ rawTime.data.all nntp.isDigitChar = true ∧
      (rawDate.length = 8 → rawDate.data.all nntp.isDigitChar = true) ∧
      (rawDate.length = 6 → (rawDate.data.drop 2).all nntp.isDigitChar = true)) ∧
    (nntp.parseNewGroupsTime "20240610" "120000" = some (2024, 6, 10, 12, 0, 0) ∧
     nntp.parseNewGroupsTime "240229" "235959" = some (2024, 2, 29, 23, 59, 59) ∧
     nntp.parseNewGroupsTime "230229" "000000" = none ∧
     nntp.parseNewGroupsTime "2024061" "0000000" = none ∧
     nntp.parseNewGroupsTime "20240610" "12000" = none ∧
     nntp.parseNewGroupsTime "2024061a" "000000" = none) := by
  refine ⟨?_, ?_, ?_, fun v hv => parseNewGroupsTime_shape rawDate rawTime v hv,
    by decide, by decide, by decide, by decide, by decide, by decide⟩
  · intro h6 h8
    have hp : nntp.parseNewGroupsTime rawDate rawTime = none := by
      have h6b : (rawDate.length == 6) = false := by simp [h6]
      have h8b : (rawDate.length == 8) = false := by simp [h8]
      simp [nntp.parseNewGroupsTime, h6b, h8b]
    simp [nntp.handleNewGroups, hp]
  · intro hp
    simp [nntp.handleNewGroups, hp]
  · intro v hp
    simp [nntp.handleNewGroups, hp]

/-- Witness for C9's amended theorem at concrete inputs: a 4-character date
is rejected, a junk 6-character date is rejected, and a well-formed
date-time is accepted. -/
theorem newGroupsDateSpec_witness :
    nntp.handleNewGroups [] "2024" "120000" =
      .single "403 error parsing date format" ∧
    nntp.handleNewGroups [] "24x611" "120000" =
      .single "403 error parsing date format" ∧
    nntp.handleNewGroups [] "240611" "120000" =
      .multi "231 list of newsgroups follows" [] ∧
    ("120000" : String).data.length = 6 :=
  ⟨(newGroupsDateSpec [] "2024" "120000").1 (by decide) (by decide),
   (newGroupsDateSpec [] "24x611" "120000").2.1 (by decide),
   (newGroupsDateSpec [] "240611" "120000").2.2.1 (2024, 6, 11, 12, 0, 0)
     (by decide),
   ((newGroupsDateSpec [] "240611" "120000").2.2.2.1 (2024, 6, 11, 12, 0, 0)
     (by decide)).1⟩

/-! ## Claim C8 -/

/-- C8: Inserting an ArticleRecord whose message_id is already present in the
spool is a no-op — the table and ArticleCount are unchanged — and (for any
starting table) inserting the same record twice equals inserting it once. -/
theorem insertArticleRecord_idempotent (sp : List store.SpoolRow)
    (rec : store.SpoolRow) :
    (store.DoesMessageIDExist sp rec.msgID = true →
      store.InsertArticleRecord sp rec = sp ∧
      store.ArticleCount (store.InsertArticleRecord sp rec) = store.ArticleCount sp) ∧
    store.InsertArticleRecord (store.InsertArticleRecord sp rec) rec =
      store.InsertArticleRecord sp rec := by
  constructor
  · intro h
    have hins : store.InsertArticleRecord sp rec = sp := by
      simp [store.InsertArticleRecord, h]
    exact ⟨hins, by rw [hins]⟩
  · by_cases h : store.DoesMessageIDExist sp rec.msgID = true
    · simp [store.InsertArticleRecord, h]
    · have h2 : store.DoesMessageIDExist (sp ++ [rec]) rec.msgID = true := by
        simp [store.DoesMessageIDExist]
      simp [store.InsertArticleRecord, h, h2]

/-- Witness for C8 at a concrete spool containing the record's message id. -/
theorem insertArticleRecord_idempotent_witness :
    store.DoesMessageIDExist [⟨5, "g", "s", "a", "<m@id>", "", "b"⟩] "<m@id>" = true ∧
    store.InsertArticleRecord [⟨5, "g", "s", "a", "<m@id>", "", "b"⟩]
        ⟨5, "g", "s", "a", "<m@id>", "", "b"⟩ = [⟨5, "g", "s", "a", "<m@id>", "", "b"⟩] :=
  ⟨by decide,
    ((insertArticleRecord_idempotent [⟨5, "g", "s", "a", "<m@id>", "", "b"⟩]
      ⟨5, "g", "s", "a", "<m@id>", "", "b"⟩).1 (by decide)).1⟩

end RedditNntp
